import Mathlib

/-!
Shallow embedding of `mistral/services/action_manager.py` — the Action
Registry and Resolution subsystem of the Mistral workflow engine.

The registry is a persisted list of action records; `sync_db` refreshes the
system subset from plugin discovery and dynamic generators.  Action creation
resolves a task's action name against the registry, optionally injects an
execution context, and falls back to ad-hoc actions declared on the task.

External collaborators (the persistence façade `db_api`, the expression
evaluator, the class materializer `action_factory.construct_action_class`)
are modelled from the spec's §6 interface descriptions: the persistence
store is explicit state (a list of records) threaded through each
operation, `transaction()` rolls writes back on failure, and the expression
evaluator is an opaque function parameter.
-/

namespace ActionManager

mutual
/-- A JSON-like runtime value (Python object as it appears in task
parameters, attributes, expression trees and results). -/
inductive Value where
  | vnone  : Value
  | vbool  : Bool → Value
  | vint   : Int → Value
  | vstr   : String → Value
  | vlist  : ValueList → Value
  | vobj   : ObjList → Value
deriving Repr, DecidableEq
/-- A Python list of values. -/
inductive ValueList where
  | nil  : ValueList
  | cons : Value → ValueList → ValueList
deriving Repr, DecidableEq
/-- A Python dict from strings to values, as an ordered key/value list. -/
inductive ObjList where
  | nil  : ObjList
  | cons : String → Value → ObjList → ObjList
deriving Repr, DecidableEq
end

/-- Build a `ValueList` from a Lean list. -/
def ValueList.ofList : List Value → ValueList
  | [] => .nil
  | v :: rest => .cons v (ofList rest)

/-- Build an `ObjList` from a Lean association list. -/
def ObjList.ofList : List (String × Value) → ObjList
  | [] => .nil
  | (k, v) :: rest => .cons k v (ofList rest)

/-- Is the Python list empty? -/
def ValueList.isNil : ValueList → Bool
  | .nil => true
  | .cons _ _ => false

/-- Is the Python dict empty? -/
def ObjList.isNil : ObjList → Bool
  | .nil => true
  | .cons _ _ _ => false

/-- Python truthiness: `None`, `False`, `0`, `""`, `[]`, `{}` are falsy. -/
def Value.falsy : Value → Bool
  | .vnone => true
  | .vbool b => !b
  | .vint n => n == 0
  | .vstr s => s == ""
  | .vlist l => l.isNil
  | .vobj l => l.isNil

/-- `d.get(k)`: look a key up in a Python dict (association list). -/
def lookupKV (l : List (String × Value)) (k : String) : Option Value :=
  match l.find? (fun p => p.1 == k) with
  | some p => some p.2
  | none => none

/-- `d[k] = v` / `d.update({k: v})` on a Python dict: overwrite the key in
place when present, append it otherwise. -/
def setKV (l : List (String × Value)) (k : String) (v : Value) : List (String × Value) :=
  if l.any (fun p => p.1 == k) then
    l.map (fun p => if p.1 == k then (k, v) else p)
  else
    l ++ [(k, v)]

/-- `k in d` on a Python dict. -/
def hasKey (l : List (String × Value)) (k : String) : Bool :=
  l.any (fun p => p.1 == k)

/-- A persisted Action Record (`values` built in `_register_action_in_db`,
rows of the `actions` table). -/
structure ActionRecord where
  name : String
  action_class : String
  attributes : List (String × Value)
  description : Option String
  is_system : Bool
deriving Repr, DecidableEq

/-- The persisted registry state: the rows of the action table, in
insertion order. -/
abbrev RegistryDB := List ActionRecord

/-- Errors raised by the persistence façade. -/
inductive DBError where
  /-- `exc.DBDuplicateEntry`: a record with the same unique name exists. -/
  | duplicateEntry : DBError
  /-- Any other database/processing exception raised while registering a
  discovered action (fault-injection for the crash-mid-sync analysis). -/
  | otherError : DBError
deriving Repr, DecidableEq

/-- Does a record with this name exist in the registry? -/
def hasName (db : RegistryDB) (n : String) : Bool :=
  db.any (fun r => r.name == n)

/-- Modelled from the spec: the persistence façade's
`create(record) -> record | DuplicateKeyError` (§6).  `db_api.create_action`
inserts the record, failing with a duplicate-key error when the unique
`name` already exists. -/
def db_create_action (db : RegistryDB) (v : ActionRecord) : Except DBError RegistryDB :=
  if hasName db v.name then .error .duplicateEntry
  else .ok (db ++ [v])

/-- One implementation found by plugin discovery (an entry of
`mgr.names()` with its entry-point target and public fields), or one
generator-produced class after namespacing.  `insertFails` is the fault
model: this step raises a non-duplicate exception (a failing attribute
extraction or insert). -/
structure DiscoveredAction where
  name : String
  action_class : String
  attributes : List (String × Value)
  insertFails : Bool
deriving Repr, DecidableEq

/-- `_register_action_in_db`: build the record with `is_system = True` and
insert it, swallowing only `DBDuplicateEntry`. -/
def _register_action_in_db (db : RegistryDB) (d : DiscoveredAction) : Except DBError RegistryDB :=
  if d.insertFails then .error .otherError
  else
    match db_create_action db
        { name := d.name, action_class := d.action_class,
          attributes := d.attributes, description := none, is_system := true } with
    | .ok db' => .ok db'
    | .error .duplicateEntry => .ok db
    | .error e => .error e

/-- `_clear_system_action_db`: `db_api.delete_actions(is_system=True)`
deletes every system record. -/
def _clear_system_action_db (db : RegistryDB) : RegistryDB :=
  db.filter (fun r => !r.is_system)

/-- The `for name in mgr.names():` loop body of `register_action_classes`:
register each discovered action in turn; an uncaught exception aborts the
rest of the loop. -/
def registerList (ds : List DiscoveredAction) (db : RegistryDB) : Except DBError RegistryDB :=
  match ds with
  | [] => .ok db
  | d :: rest =>
    match _register_action_in_db db d with
    | .ok db' => registerList rest db'
    | .error e => .error e

/-- One action class produced by a Dynamic Action Generator
(`generator.create_action_classes()` item). -/
structure GeneratedAction where
  action_name : String
  attributes : List (String × Value)
  insertFails : Bool
deriving Repr, DecidableEq

/-- A configured Dynamic Action Generator
(`generator_factory.all_generators()` item). -/
structure ActionGenerator where
  action_namespace : String
  /-- `"%s.%s" % (module, class_name)` of `generator.base_action_class`. -/
  base_action_class_str : String
  action_classes : List GeneratedAction
deriving Repr, DecidableEq

/-- The discovered-action form of one generator-produced class:
`"{namespace}.{action_name}"` registered under the generator's base class
string. -/
def generatedDiscovered (g : ActionGenerator) (a : GeneratedAction) : DiscoveredAction :=
  { name := g.action_namespace ++ "." ++ a.action_name,
    action_class := g.base_action_class_str,
    attributes := a.attributes,
    insertFails := a.insertFails }

/-- `_register_dynamic_action_classes`: every configured generator registers
its produced classes under namespaced names. -/
def _register_dynamic_action_classes (gens : List ActionGenerator) (db : RegistryDB) : Except DBError RegistryDB :=
  match gens with
  | [] => .ok db
  | g :: rest =>
    match registerList (g.action_classes.map (generatedDiscovered g)) db with
    | .ok db' => _register_dynamic_action_classes rest db'
    | .error e => .error e

/-- `register_action_classes`: inside `with db_api.transaction():`, register
every natively discovered implementation, then run the dynamic generators.
The transaction semantics (rollback of these writes on failure) is applied
by the caller `sync_db`. -/
def register_action_classes (plugins : List DiscoveredAction)
    (gens : List ActionGenerator) (db : RegistryDB) : Except DBError RegistryDB :=
  match registerList plugins db with
  | .ok db' => _register_dynamic_action_classes gens db'
  | .error e => .error e

/-- Modelled from the spec: §6 `transaction() -> scoped unit of work`
(`db_api.transaction`, not under the visible sources): run the body's
writes against the store; on failure every write made inside the scope
rolls back to the state at entry and the exception propagates.  Returns
the outcome together with the persisted state. -/
def transactionRun (db : RegistryDB) (body : RegistryDB → Except DBError RegistryDB) :
    Except DBError Unit × RegistryDB :=
  match body db with
  | .ok db' => (.ok (), db')
  | .error e => (.error e, db)

/-- `sync_db`: delete every system record, then re-register.  The deletion
(`_clear_system_action_db`) runs BEFORE the `with db_api.transaction():`
block inside `register_action_classes`, so it commits on its own; the
transaction covers only the re-inserts.  Returns the outcome together with
the persisted registry state after the attempt. -/
def sync_db (plugins : List DiscoveredAction) (gens : List ActionGenerator)
    (db : RegistryDB) : Except DBError Unit × RegistryDB :=
  transactionRun (_clear_system_action_db db) (register_action_classes plugins gens)

/-- The system-action set: every `is_system=true` record of the registry. -/
def systemActions (db : RegistryDB) : RegistryDB :=
  db.filter (fun r => r.is_system)

/-- The reserved context parameter name (`_ACTION_CTX_PARAM`). -/
def _ACTION_CTX_PARAM : String := "action_context"

/-- A materialized action class, abstracted to what `create_action` observes
of it: whether its `__init__` signature contains the reserved context
parameter (`inspect.getargspec`), and on which keyword arguments its
constructor raises. -/
structure ActionClass where
  hasCtxParam : Bool
  ctorRaises : List (String × Value) → Bool

/-- Modelled from the spec: §4.2's production of a materializable handle
from `implementation_reference` + `attributes`
(`action_factory.construct_action_class`, not under the visible sources):
an opaque map from a record's `action_class` string and `attributes` to a
class. -/
abbrev ClassMaterializer := String → List (String × Value) → ActionClass

/-- The environment `create_action` runs in: the persisted registry plus
the class materializer. -/
structure Env where
  db : RegistryDB
  classOf : ClassMaterializer

/-- `db_api.load_action`: look a record up by exact name, `None` if absent. -/
def load_action (db : RegistryDB) (action_name : String) : Option ActionRecord :=
  db.find? (fun r => r.name == action_name)

/-- `get_action_db`. -/
def get_action_db (env : Env) (action_name : String) : Option ActionRecord :=
  load_action env.db action_name

/-- `get_action_class`: find the record by full action name and materialize
its class; `None` if not found. -/
def get_action_class (env : Env) (action_full_name : String) : Option ActionClass :=
  match get_action_db env action_full_name with
  | some action_db => some (env.classOf action_db.action_class action_db.attributes)
  | none => none

/-- An Ad-hoc Action Spec (`spec_parser.get_action_spec` result): the base
class reference, the `base-parameters` mapping and the `output` transform,
each `vnone` when absent in the declaration. -/
structure AdhocActionSpec where
  clazz : String
  base_parameters : Value
  output : Value
deriving Repr, DecidableEq

/-- The parsed task spec, abstracted to what `create_action` reads from it:
`get_full_action_name()`. -/
structure TaskSpec where
  full_action_name : String
deriving Repr, DecidableEq

/-- A task record (`db_task`) as `create_action` reads it.  `action_spec`
is `none` when the raw `db_task['action_spec']` is falsy, otherwise the
parsed ad-hoc spec. -/
structure DbTask where
  workbook_name : String
  execution_id : String
  id : String
  name : String
  tags : List String
  task_spec : TaskSpec
  action_spec : Option AdhocActionSpec
  parameters : Option (List (String × Value))
  in_context : List (String × Value)
deriving Repr, DecidableEq

/-- Exceptions raised on the creation/resolution paths. -/
inductive CreateError where
  /-- `exc.ActionException`: `Unknown action [workbook_name=…, action=…]`. -/
  | unknownAction (workbook_name : String) (action : String)
  /-- `exc.ActionException`: `Ad-hoc action class is not registered
  [workbook=…, action=…, action_spec=…]` (missing spec in the workbook). -/
  | adhocSpecMissing (workbook : String) (action : String)
  /-- `exc.ActionException`: `Ad-hoc action base class is not registered
  [workbook=…, action=…, base_class=…]`. -/
  | adhocBaseNotRegistered (workbook : String) (action : String)
  /-- `exc.ActionException`: `Failed to create action [db_task=…]: …`
  (the resolved class's constructor raised). -/
  | createFailed (action : String)
  /-- Python `TypeError`: `inspect.getargspec` applied to the `__init__` of
  a non-class (here, of `None` when the base class is unresolved). -/
  | typeError
  /-- Python `AttributeError`: attribute access on `None` (here,
  `None.update(...)` when `db_task['parameters']` is `None`). -/
  | attributeError
deriving Repr, DecidableEq

/-- `_get_action_context`: the Execution Context dict built from task
fields; the openstack context is nested under `'openstack'` only when
truthy (`if openstack_context:`). -/
def _get_action_context (t : DbTask) (openstack_context : Option Value) : Value :=
  let base : List (String × Value) :=
    [("workbook_name", .vstr t.workbook_name),
     ("execution_id", .vstr t.execution_id),
     ("task_id", .vstr t.id),
     ("task_name", .vstr t.name),
     ("task_tags", .vlist (ValueList.ofList (t.tags.map .vstr)))]
  match openstack_context with
  | some c => if c.falsy then .vobj (ObjList.ofList base)
              else .vobj (ObjList.ofList (base ++ [("openstack", c)]))
  | none => .vobj (ObjList.ofList base)

/-- `_has_action_context_param`: `inspect.getargspec(action_cls.__init__)`
and membership of the reserved name in its argument list.  Applied to
`None` (an unresolved class, as `_create_adhoc_action` does before its
`if not base_cls` check) the signature inspection raises a `TypeError`. -/
def _has_action_context_param : Option ActionClass → Except CreateError Bool
  | some action_cls => .ok action_cls.hasCtxParam
  | none => .error .typeError

/-- `db_task['parameters'] or {}`. -/
def paramsOrEmpty (p : Option (List (String × Value))) : List (String × Value) :=
  p.getD []

/-- Modelled from the spec: the instantiated action (§4.5) — instantiation
of the materialized class and `std_actions.AdHocAction` are not under the
visible sources, so an instance is abstracted to what construction
determines: the resolved name/class and the keyword arguments the
constructor received. -/
inductive CreatedAction where
  | plain (action_name : String) (args : List (String × Value))
  | adhoc (action_context : Option Value) (base_class : String)
          (spec : AdhocActionSpec) (args : List (String × Value))
deriving Repr, DecidableEq

/-- `_create_adhoc_action`: `None` when the task carries no ad-hoc spec;
otherwise resolve the base class — note the source inspects the base
class's signature BEFORE its `if not base_cls` check, so an unresolved
base raises the inspection `TypeError` and the registered-base check is
never reached in that case. -/
def _create_adhoc_action (env : Env) (t : DbTask) (openstack_context : Option Value) :
    Except CreateError (Option CreatedAction) :=
  let full_action_name := t.task_spec.full_action_name
  match t.action_spec with
  | none => .ok none
  | some action_spec =>
    let base_cls := get_action_class env action_spec.clazz
    match _has_action_context_param base_cls with
    | .error e => .error e
    | .ok has_ctx =>
      let action_context :=
        if has_ctx then some (_get_action_context t openstack_context) else none
      match base_cls with
      | none => .error (.adhocBaseNotRegistered t.workbook_name full_action_name)
      | some _ =>
        .ok (some (.adhoc action_context action_spec.clazz action_spec
          (paramsOrEmpty t.parameters)))

/-- The unresolved branch of `create_action` (lines after the parameter
update): try the ad-hoc definition; `None` from it means unknown action. -/
def create_action_unresolved (env : Env) (t : DbTask) (openstack_ctx : Option Value) :
    Except CreateError CreatedAction × DbTask :=
  match _create_adhoc_action env t openstack_ctx with
  | .error e => (.error e, t)
  | .ok (some action) => (.ok action, t)
  | .ok none => (.error (.unknownAction t.workbook_name t.task_spec.full_action_name), t)

/-- `create_action`: resolve the task's full action name; on success build
the keyword arguments (injecting the Execution Context under the reserved
name when the class's signature has it) and construct; on failure fall back
to the ad-hoc definition.  Returns the outcome together with the task
record as left after the call: `db_task['parameters']` is mutated in place
by `update({'openstack': …})` on the unresolved path, and — since
`action_params` aliases the parameters dict when that dict is non-empty —
by the context injection on the resolved path. -/
def create_action (env : Env) (t : DbTask) : Except CreateError CreatedAction × DbTask :=
  let full_action_name := t.task_spec.full_action_name
  let action_cls := get_action_class env full_action_name
  let openstack_ctx := lookupKV t.in_context "openstack"
  match action_cls with
  | none =>
    match openstack_ctx with
    | some c =>
      match t.parameters with
      | none => (.error .attributeError, t)
      | some p =>
        let t' := { t with parameters := some (setKV p "openstack" c) }
        create_action_unresolved env t' (some c)
    | none => create_action_unresolved env t none
  | some action_cls =>
    let baseArgs := paramsOrEmpty t.parameters
    let args :=
      if action_cls.hasCtxParam then
        setKV baseArgs _ACTION_CTX_PARAM (_get_action_context t openstack_ctx)
      else baseArgs
    let t' :=
      match t.parameters with
      | some p => if p.isEmpty then t else { t with parameters := some args }
      | none => t
    if action_cls.ctorRaises args then (.error (.createFailed full_action_name), t')
    else (.ok (.plain full_action_name args), t')

/-- A workbook, abstracted to what resolution reads from it: its name (for
error messages) and its declared ad-hoc actions (`workbook.get_action`). -/
structure Workbook where
  name : String
  actions : List (String × AdhocActionSpec)
deriving Repr, DecidableEq

/-- `workbook.get_action(action_name)`: the declared ad-hoc spec, `None`
when absent. -/
def Workbook.get_action (wb : Workbook) (action_name : String) : Option AdhocActionSpec :=
  match wb.actions.find? (fun p => p.1 == action_name) with
  | some p => some p.2
  | none => none

/-- `resolve_adhoc_action_name`: fail when the workbook has no such ad-hoc
spec, fail when the spec's base class is not registered, otherwise return
the base implementation reference. -/
def resolve_adhoc_action_name (env : Env) (workbook : Workbook) (action_name : String) :
    Except CreateError String :=
  match workbook.get_action action_name with
  | none => .error (.adhocSpecMissing workbook.name action_name)
  | some action_spec =>
    match get_action_class env action_spec.clazz with
    | none => .error (.adhocBaseNotRegistered workbook.name action_name)
    | some _ => .ok action_spec.clazz

/-- Modelled from the spec: §6's opaque Expression Evaluator
`evaluate_recursively(tree, context) -> value` (`mistral.expressions`, not
under the visible sources), total over any JSON-like tree; passed to the
conversion functions as a parameter. -/
abbrev ExprEvaluator := Value → Value → Value

/-- `convert_adhoc_action_params`: empty (falsy) `base_parameters` gives
`{}`; otherwise the recursive evaluation of `base_parameters` with the call
parameters as context.  A missing spec makes the attribute access on
`None` raise. -/
def convert_adhoc_action_params (evalRec : ExprEvaluator)
    (workbook : Workbook) (action_name : String) (params : Value) :
    Except CreateError Value :=
  match workbook.get_action action_name with
  | none => .error .attributeError
  | some action_spec =>
    let base_params := action_spec.base_parameters
    if base_params.falsy then .ok (.vobj .nil)
    else .ok (evalRec base_params params)

/-- `convert_adhoc_action_result`: a falsy `output` transformer gives the
base result unchanged; otherwise the recursive evaluation of the transform
tree with the base result as context. -/
def convert_adhoc_action_result (evalRec : ExprEvaluator)
    (workbook : Workbook) (action_name : String) (result : Value) :
    Except CreateError Value :=
  match workbook.get_action action_name with
  | none => .error .attributeError
  | some action_spec =>
    let transformer := action_spec.output
    if transformer.falsy then .ok result
    else .ok (evalRec transformer result)

/-! ### Helper lemmas about sync -/

/-- Deleting the system records twice is the same as deleting them once. -/
lemma clear_system_idem (db : RegistryDB) :
    _clear_system_action_db (_clear_system_action_db db) = _clear_system_action_db db := by
  simp [_clear_system_action_db, List.filter_filter]

/-- After deleting the system records, the system-action set is empty. -/
lemma systemActions_clear_system (db : RegistryDB) :
    systemActions (_clear_system_action_db db) = [] := by
  simp [systemActions, _clear_system_action_db, List.filter_filter]

/-- A single successful registration step preserves the non-system part of
the registry: it inserts only an `is_system=true` record, or nothing. -/
lemma register_in_db_clear (db db' : RegistryDB) (d : DiscoveredAction)
    (h : _register_action_in_db db d = .ok db') :
    _clear_system_action_db db' = _clear_system_action_db db := by
  unfold _register_action_in_db db_create_action at h
  by_cases hf : d.insertFails <;> simp [hf] at h
  by_cases hn : hasName db d.name <;> simp [hn] at h
  · rw [← h]
  · rw [← h]
    simp [_clear_system_action_db, List.filter_append]

/-- Registering a list of discovered actions preserves the non-system part
of the registry. -/
lemma registerList_clear (ds : List DiscoveredAction) (db db' : RegistryDB)
    (h : registerList ds db = .ok db') :
    _clear_system_action_db db' = _clear_system_action_db db := by
  induction ds generalizing db with
  | nil =>
    simp [registerList] at h
    rw [h]
  | cons d rest ih =>
    unfold registerList at h
    cases hr : _register_action_in_db db d with
    | ok db1 =>
      rw [hr] at h
      exact (ih db1 h).trans (register_in_db_clear db db1 d hr)
    | error e => rw [hr] at h; exact absurd h (by simp)

/-- Running the dynamic generators preserves the non-system part of the
registry. -/
lemma registerGens_clear (gens : List ActionGenerator) (db db' : RegistryDB)
    (h : _register_dynamic_action_classes gens db = .ok db') :
    _clear_system_action_db db' = _clear_system_action_db db := by
  induction gens generalizing db with
  | nil =>
    simp [_register_dynamic_action_classes] at h
    rw [h]
  | cons g rest ih =>
    unfold _register_dynamic_action_classes at h
    cases hr : registerList (g.action_classes.map (generatedDiscovered g)) db with
    | ok db1 =>
      rw [hr] at h
      exact (ih db1 h).trans (registerList_clear _ db db1 hr)
    | error e => rw [hr] at h; exact absurd h (by simp)

/-- A successful registration pass preserves the non-system part of the
registry. -/
lemma register_action_classes_clear (p : List DiscoveredAction) (g : List ActionGenerator)
    (db db' : RegistryDB) (h : register_action_classes p g db = .ok db') :
    _clear_system_action_db db' = _clear_system_action_db db := by
  unfold register_action_classes at h
  cases hr : registerList p db with
  | ok db1 =>
    rw [hr] at h
    exact (registerGens_clear g db1 db' h).trans (registerList_clear p db db1 hr)
  | error e => rw [hr] at h; exact absurd h (by simp)

/-- The non-system part of the registry is invariant under `sync_db`,
whether the attempt succeeds or fails. -/
lemma sync_db_clear (p : List DiscoveredAction) (g : List ActionGenerator) (db : RegistryDB) :
    _clear_system_action_db (sync_db p g db).2 = _clear_system_action_db db := by
  unfold sync_db transactionRun
  cases hr : register_action_classes p g (_clear_system_action_db db) with
  | ok db2 =>
    simpa using (register_action_classes_clear p g _ db2 hr).trans (clear_system_idem db)
  | error e => simpa using clear_system_idem db

/-- `sync_db` reads its input registry only through its non-system part. -/
lemma sync_db_congr_clear (p : List DiscoveredAction) (g : List ActionGenerator)
    (db1 db2 : RegistryDB)
    (h : _clear_system_action_db db1 = _clear_system_action_db db2) :
    sync_db p g db1 = sync_db p g db2 := by
  unfold sync_db
  rw [h]

/-! ### C1 — atomicity of sync -/

/-- A pre-existing system record in the registry before a sync attempt. -/
def c1PriorRecord : ActionRecord :=
  { name := "std.prior", action_class := "mistral.actions.std_actions.Prior",
    attributes := [], description := none, is_system := true }

/-- A discovered implementation whose registration step raises a
non-duplicate error. -/
def c1FaultAction : DiscoveredAction :=
  { name := "std.fresh", action_class := "mistral.actions.std_actions.Fresh",
    attributes := [], insertFails := true }

/-- C1 is false on the code: with one prior system record and a discovery
whose insert step raises, the failing `sync_db` leaves the registry empty —
the prior system record `std.prior` is gone (the delete committed outside
the transaction) and the new record `std.fresh` was rolled back, so the
persisted state is neither the prior nor the new system-action set. -/
theorem sync_not_atomic_counterexample :
    (sync_db [c1FaultAction] [] [c1PriorRecord]).1 = .error .otherError ∧
    (sync_db [c1FaultAction] [] [c1PriorRecord]).2 = [] ∧
    systemActions [c1PriorRecord] = [c1PriorRecord] ∧
    [c1PriorRecord] ≠ ([] : RegistryDB) ∧
    hasName (sync_db [c1FaultAction] [] [c1PriorRecord]).2 "std.fresh" = false := by
  refine ⟨rfl, rfl, rfl, by decide, rfl⟩

/-- C1 (amended): only the re-inserts run inside the transactional unit of
work; the deletion of system records commits before it.  A sync attempt
that fails after the deletion leaves the registry with every
`is_system=false` record intact but the system-action set empty — not the
registry as it was before the attempt. -/
theorem sync_failure_clears_system_set (p : List DiscoveredAction)
    (g : List ActionGenerator) (db : RegistryDB) (e : DBError)
    (h : (sync_db p g db).1 = .error e) :
    systemActions (sync_db p g db).2 = [] ∧
    _clear_system_action_db (sync_db p g db).2 = _clear_system_action_db db := by
  refine ⟨?_, sync_db_clear p g db⟩
  unfold sync_db transactionRun at h ⊢
  cases hr : register_action_classes p g (_clear_system_action_db db) with
  | ok db2 => rw [hr] at h; exact absurd h (by simp)
  | error e2 =>
    simpa using systemActions_clear_system db

/-- C1 (amended), witnessed on the concrete failing sync from the
counterexample. -/
theorem sync_failure_clears_system_set_witness :
    (sync_db [c1FaultAction] [] [c1PriorRecord]).1 = .error .otherError ∧
    (systemActions (sync_db [c1FaultAction] [] [c1PriorRecord]).2 = [] ∧
      _clear_system_action_db (sync_db [c1FaultAction] [] [c1PriorRecord]).2 =
        _clear_system_action_db [c1PriorRecord]) :=
  ⟨rfl, sync_failure_clears_system_set [c1FaultAction] [] [c1PriorRecord] .otherError rfl⟩

/-! ### C7 — idempotent sync -/

/-- C7: `sync_db` is idempotent — for any fixed discovered implementations
and configured generators, the system-action set persisted after a second
consecutive sync equals the set after the first (the whole persisted
outcome coincides, since a sync depends on its input registry only through
the non-system records, which every sync preserves). -/
theorem sync_db_idempotent_system_set (p : List DiscoveredAction)
    (g : List ActionGenerator) (db : RegistryDB) :
    systemActions (sync_db p g (sync_db p g db).2).2 = systemActions (sync_db p g db).2 := by
  rw [sync_db_congr_clear p g (sync_db p g db).2 db (sync_db_clear p g db)]

/-! ### C8 — duplicate registration is benign -/

/-- C8: registering a discovered action whose name already exists in the
registry is attempted and the duplicate-key failure is swallowed:
`_register_action_in_db` returns success with the registry unchanged, and
the registration loop proceeds with the remaining discovered actions
exactly as if the duplicate had not been in the list. -/
theorem duplicate_insert_swallowed (db : RegistryDB) (d : DiscoveredAction)
    (rest : List DiscoveredAction)
    (h1 : d.insertFails = false) (h2 : hasName db d.name = true) :
    _register_action_in_db db d = .ok db ∧
    registerList (d :: rest) db = registerList rest db := by
  have hreg : _register_action_in_db db d = .ok db := by
    unfold _register_action_in_db db_create_action
    simp [h1, h2]
  refine ⟨hreg, ?_⟩
  conv_lhs => rw [registerList, hreg]

/-- The registry state for the C8 witness: `std.echo` already registered. -/
def c8Registry : RegistryDB :=
  [{ name := "std.echo", action_class := "mistral.actions.std_actions.Echo",
     attributes := [], description := none, is_system := true }]

/-- Discovery re-finding the already-registered `std.echo`. -/
def c8Duplicate : DiscoveredAction :=
  { name := "std.echo", action_class := "mistral.actions.std_actions.Echo",
    attributes := [], insertFails := false }

/-- C8, witnessed: discovery re-finds the already-registered `std.echo`;
its insert raises the duplicate error, which is swallowed, and the loop
outcome equals the loop on the remaining (empty) list. -/
theorem duplicate_insert_swallowed_witness :
    c8Duplicate.insertFails = false ∧
    hasName c8Registry "std.echo" = true ∧
    (_register_action_in_db c8Registry c8Duplicate = .ok c8Registry ∧
      registerList [c8Duplicate] c8Registry = registerList [] c8Registry) :=
  ⟨rfl, rfl, duplicate_insert_swallowed c8Registry c8Duplicate [] rfl rfl⟩

/-! ### Helper lemmas about action creation -/

/-- A task without an ad-hoc spec yields no ad-hoc action. -/
lemma create_adhoc_action_none (env : Env) (t : DbTask) (octx : Option Value)
    (h : t.action_spec = none) : _create_adhoc_action env t octx = .ok none := by
  unfold _create_adhoc_action
  rw [h]

/-- Without an ad-hoc spec, the unresolved branch fails with the
unknown-action error and returns the task it was given. -/
lemma create_action_unresolved_unknown (env : Env) (t : DbTask) (octx : Option Value)
    (h : t.action_spec = none) :
    create_action_unresolved env t octx =
      (.error (.unknownAction t.workbook_name t.task_spec.full_action_name), t) := by
  unfold create_action_unresolved
  rw [create_adhoc_action_none env t octx h]

/-- The unresolved branch returns the task it was given, whatever its
outcome. -/
lemma create_action_unresolved_task (env : Env) (t : DbTask) (octx : Option Value) :
    (create_action_unresolved env t octx).2 = t := by
  unfold create_action_unresolved
  cases h : _create_adhoc_action env t octx with
  | error e => simp
  | ok o => cases o <;> simp

/-! ### C2 — unknown action -/

/-- An environment with an empty registry. -/
def c2Env : Env :=
  { db := [], classOf := fun _ _ => { hasCtxParam := false, ctorRaises := fun _ => false } }

/-- A task naming an unregistered action, with no ad-hoc spec, a `None`
parameters mapping, and an openstack entry in its context. -/
def c2Task : DbTask :=
  { workbook_name := "wb", execution_id := "e", id := "t1", name := "task1", tags := [],
    task_spec := { full_action_name := "nonexistent.action" }, action_spec := none,
    parameters := none, in_context := [("openstack", .vint 1)] }

/-- C2 is false as stated: for a task whose action name resolves to no
registered action and that carries no ad-hoc spec, but whose parameters
mapping is `None` while an openstack context entry is present, `create`
raises the `AttributeError` from `None.update(...)` — a different
exception than the unknown-action error. -/
theorem create_unknown_action_attribute_error_counterexample :
    (get_action_class c2Env "nonexistent.action").isNone = true ∧
    c2Task.action_spec = none ∧
    (create_action c2Env c2Task).1 = .error .attributeError ∧
    (create_action c2Env c2Task).1 ≠ .error (.unknownAction "wb" "nonexistent.action") := by
  refine ⟨rfl, rfl, rfl, ?_⟩
  intro hEq
  rw [show (create_action c2Env c2Task).1 = .error .attributeError from rfl] at hEq
  exact CreateError.noConfusion (Except.error.inj hEq)

/-- C2 (amended): when the task's action name resolves to no registered
action and the task carries no ad-hoc spec, `create` fails with the
unknown-action `ActionException`, naming the workbook and the action —
provided the parameters mapping is present or the task context has no
openstack entry (otherwise the context merge crashes first). -/
theorem create_unknown_action_error (env : Env) (t : DbTask)
    (h1 : get_action_class env t.task_spec.full_action_name = none)
    (h2 : t.action_spec = none)
    (h3 : t.parameters ≠ none ∨ lookupKV t.in_context "openstack" = none) :
    (create_action env t).1 =
      .error (.unknownAction t.workbook_name t.task_spec.full_action_name) := by
  simp only [create_action, h1]
  cases hl : lookupKV t.in_context "openstack" with
  | none =>
    rw [create_action_unresolved_unknown env t none h2]
  | some c =>
    cases hp : t.parameters with
    | none =>
      rcases h3 with h3 | h3
      · exact absurd hp h3
      · rw [hl] at h3; exact absurd h3 (by simp)
    | some p =>
      dsimp only
      rw [create_action_unresolved_unknown env
        { t with parameters := some (setKV p "openstack" c) } (some c) h2]

/-- C2 (amended), witnessed: same task but with a parameters mapping
present; `create` fails with exactly the unknown-action error. -/
theorem create_unknown_action_error_witness :
    get_action_class c2Env "nonexistent.action" = none ∧
    ({ c2Task with parameters := some [("who", .vstr "Ann")] } : DbTask).action_spec = none ∧
    (({ c2Task with parameters := some [("who", .vstr "Ann")] } : DbTask).parameters ≠ none ∨
      lookupKV ({ c2Task with parameters := some [("who", .vstr "Ann")] } : DbTask).in_context
        "openstack" = none) ∧
    (create_action c2Env { c2Task with parameters := some [("who", .vstr "Ann")] }).1 =
      .error (.unknownAction "wb" "nonexistent.action") :=
  ⟨rfl, rfl, Or.inl (by simp),
    create_unknown_action_error c2Env _ rfl rfl (Or.inl (by simp))⟩

/-! ### C3 — unregistered ad-hoc base -/

/-- An environment with an empty registry (no base class registered). -/
def c3Env : Env :=
  { db := [], classOf := fun _ _ => { hasCtxParam := false, ctorRaises := fun _ => false } }

/-- An ad-hoc spec whose base implementation reference is unregistered. -/
def c3Spec : AdhocActionSpec :=
  { clazz := "missing.Base", base_parameters := .vnone, output := .vnone }

/-- A task carrying the unregistered-base ad-hoc spec. -/
def c3Task : DbTask :=
  { workbook_name := "wb", execution_id := "e", id := "t1", name := "task1", tags := [],
    task_spec := { full_action_name := "demo.act" }, action_spec := some c3Spec,
    parameters := some [], in_context := [] }

/-- A workbook declaring the same ad-hoc spec under `demo.act`. -/
def c3Wb : Workbook := { name := "wb", actions := [("demo.act", c3Spec)] }

/-- C3's failing input evaluated on the code: resolving the ad-hoc name
fails with the unregistered-base `ActionException` as claimed, but
constructing the ad-hoc action via `create` raises the signature-inspection
`TypeError` instead — `_create_adhoc_action` inspects the base class before
its own `if not base_cls` check, so that check is unreachable when the base
is missing. -/
theorem adhoc_unregistered_base_type_error :
    resolve_adhoc_action_name c3Env c3Wb "demo.act" =
      .error (.adhocBaseNotRegistered "wb" "demo.act") ∧
    (create_action c3Env c3Task).1 = .error .typeError ∧
    ∀ wb act, (create_action c3Env c3Task).1 ≠ .error (.adhocBaseNotRegistered wb act) := by
  refine ⟨rfl, rfl, ?_⟩
  intro wb act hEq
  rw [show (create_action c3Env c3Task).1 = .error .typeError from rfl] at hEq
  exact CreateError.noConfusion (Except.error.inj hEq)

/-! ### C4 — purity / frame of create -/

/-- Agreement of two task records on every field other than the parameters
mapping. -/
def sameExceptParams (a b : DbTask) : Prop :=
  a.workbook_name = b.workbook_name ∧ a.execution_id = b.execution_id ∧
  a.id = b.id ∧ a.name = b.name ∧ a.tags = b.tags ∧ a.task_spec = b.task_spec ∧
  a.action_spec = b.action_spec ∧ a.in_context = b.in_context

/-- An environment registering `std.echo` with a context-aware class. -/
def c4Env : Env :=
  { db := [{ name := "std.echo", action_class := "mistral.actions.std_actions.Echo",
             attributes := [], description := none, is_system := true }],
    classOf := fun _ _ => { hasCtxParam := true, ctorRaises := fun _ => false } }

/-- A task invoking `std.echo` with a non-empty parameters mapping. -/
def c4Task : DbTask :=
  { workbook_name := "wb", execution_id := "e", id := "t1", name := "task1", tags := [],
    task_spec := { full_action_name := "std.echo" }, action_spec := none,
    parameters := some [("x", .vint 1)], in_context := [] }

/-- C4 is false as stated: creating an action for a task with a non-empty
parameters mapping and a context-aware resolved class succeeds, but writes
the injected Execution Context into the task's own parameters mapping
(`action_params` aliases `db_task['parameters']`), so the task record is
left changed. -/
theorem create_action_mutates_parameters :
    (create_action c4Env c4Task).1 =
      .ok (.plain "std.echo"
        [("x", .vint 1), (_ACTION_CTX_PARAM, _get_action_context c4Task none)]) ∧
    (create_action c4Env c4Task).2.parameters ≠ c4Task.parameters ∧
    hasKey (paramsOrEmpty (create_action c4Env c4Task).2.parameters) _ACTION_CTX_PARAM = true ∧
    hasKey (paramsOrEmpty c4Task.parameters) _ACTION_CTX_PARAM = false := by
  refine ⟨rfl, ?_, rfl, rfl⟩
  intro hEq
  have : (2 : Nat) = 1 := congrArg (fun o => (paramsOrEmpty o).length) hEq
  exact absurd this (by decide)

/-- C4 (amended): `create_action` performs no registry writes (it only
reads the registry) and leaves every field of the task record other than
the parameters mapping unchanged, whether creation succeeds or fails; the
parameters mapping itself can be mutated, by the openstack-context merge on
the unresolved path and by context injection on the resolved path. -/
theorem create_action_frame_except_parameters (env : Env) (t : DbTask) :
    sameExceptParams (create_action env t).2 t := by
  have hshape : ∀ ps, sameExceptParams { t with parameters := ps } t := by
    intro ps
    simp [sameExceptParams]
  have hT : sameExceptParams t t := ⟨rfl, rfl, rfl, rfl, rfl, rfl, rfl, rfl⟩
  simp only [create_action]
  repeat' split
  all_goals
    first
      | exact hT
      | exact hshape _
      | (rw [create_action_unresolved_task]; exact hT)

/-! ### C9 — context gating -/

/-- C9: for a resolved action class, the constructed instance's keyword
arguments are exactly the caller's parameters when the class's constructor
signature lacks the reserved context parameter — it never receives an
Execution Context — and exactly the caller's parameters with the Execution
Context injected under the reserved name when the signature has it. -/
theorem context_injection_iff_ctx_param (env : Env) (t : DbTask) (cls : ActionClass)
    (r : CreatedAction)
    (h1 : get_action_class env t.task_spec.full_action_name = some cls)
    (h2 : (create_action env t).1 = .ok r) :
    (cls.hasCtxParam = false →
      r = .plain t.task_spec.full_action_name (paramsOrEmpty t.parameters)) ∧
    (cls.hasCtxParam = true →
      r = .plain t.task_spec.full_action_name
        (setKV (paramsOrEmpty t.parameters) _ACTION_CTX_PARAM
          (_get_action_context t (lookupKV t.in_context "openstack")))) := by
  simp only [create_action, h1] at h2
  constructor
  · intro hc
    rw [hc] at h2
    simp only [Bool.false_eq_true, if_false] at h2
    split at h2 <;> simp_all
  · intro hc
    rw [hc] at h2
    simp only [if_true] at h2
    split at h2 <;> simp_all

/-- The class resolved for the C9 witness: no reserved context parameter. -/
def c9Cls : ActionClass := { hasCtxParam := false, ctorRaises := fun _ => false }

/-- An environment registering `std.http` with the context-unaware class. -/
def c9Env : Env :=
  { db := [{ name := "std.http", action_class := "mistral.actions.std_actions.HTTPAction",
             attributes := [], description := none, is_system := true }],
    classOf := fun _ _ => c9Cls }

/-- A task invoking `std.http` with one caller parameter. -/
def c9Task : DbTask :=
  { workbook_name := "wb", execution_id := "e", id := "t1", name := "task1", tags := [],
    task_spec := { full_action_name := "std.http" }, action_spec := none,
    parameters := some [("url", .vstr "site.example")], in_context := [] }

/-- C9, witnessed: the context-unaware `std.http` class is constructed with
exactly the caller's parameters — no Execution Context. -/
theorem context_injection_iff_ctx_param_witness :
    get_action_class c9Env "std.http" = some c9Cls ∧
    (create_action c9Env c9Task).1 =
      .ok (.plain "std.http" [("url", .vstr "site.example")]) ∧
    (c9Cls.hasCtxParam = false ∧
      (CreatedAction.plain "std.http" [("url", .vstr "site.example")]) =
        .plain "std.http" (paramsOrEmpty c9Task.parameters)) :=
  ⟨rfl, rfl, rfl,
    (context_injection_iff_ctx_param c9Env c9Task c9Cls _ rfl rfl).1 rfl⟩

/-! ### C5 — ad-hoc parameter mapping -/

/-- C5: mapping the call parameters of an ad-hoc action whose declared spec
has empty (absent or `{}`) `base-parameters` yields the empty mapping,
whatever the call parameters; with non-empty `base-parameters` it yields
their recursive evaluation with the call parameters as the evaluation
context. -/
theorem convert_params_empty_or_eval (evalRec : ExprEvaluator) (wb : Workbook)
    (action_name : String) (spec : AdhocActionSpec) (params : Value)
    (h : wb.get_action action_name = some spec) :
    (spec.base_parameters = .vnone ∨ spec.base_parameters = .vobj .nil →
      convert_adhoc_action_params evalRec wb action_name params = .ok (.vobj .nil)) ∧
    (spec.base_parameters.falsy = false →
      convert_adhoc_action_params evalRec wb action_name params =
        .ok (evalRec spec.base_parameters params)) := by
  unfold convert_adhoc_action_params
  rw [h]
  constructor
  · rintro (hb | hb) <;> simp [hb, Value.falsy, ObjList.isNil]
  · intro hb
    simp [hb]

/-- The ad-hoc spec for the C5 witness: no `base-parameters`. -/
def c5Spec : AdhocActionSpec :=
  { clazz := "std.echo", base_parameters := .vobj .nil, output := .vnone }

/-- A workbook declaring the C5 spec under `demo.noparams`. -/
def c5Wb : Workbook := { name := "wb", actions := [("demo.noparams", c5Spec)] }

/-- C5, witnessed: with `base_parameters = {}` and call parameters
`{"x": 1}`, the mapped parameters are `{}` — nothing is auto-forwarded —
whatever the expression evaluator does. -/
theorem convert_params_empty_or_eval_witness :
    c5Wb.get_action "demo.noparams" = some c5Spec ∧
    c5Spec.base_parameters = .vobj .nil ∧
    convert_adhoc_action_params (fun _ _ => .vstr "EVAL") c5Wb "demo.noparams"
      (.vobj (.cons "x" (.vint 1) .nil)) = .ok (.vobj .nil) :=
  ⟨rfl, rfl,
    (convert_params_empty_or_eval (fun _ _ => .vstr "EVAL") c5Wb "demo.noparams" c5Spec
      (.vobj (.cons "x" (.vint 1) .nil)) rfl).1 (Or.inr rfl)⟩

/-! ### C6 — ad-hoc result mapping -/

/-- C6: mapping the base result of an ad-hoc action whose declared spec has
no `output` transform is the identity; with a (truthy) transform it yields
the recursive evaluation of the transform tree with the base result as the
evaluation context. -/
theorem convert_result_identity_or_eval (evalRec : ExprEvaluator) (wb : Workbook)
    (action_name : String) (spec : AdhocActionSpec) (result : Value)
    (h : wb.get_action action_name = some spec) :
    (spec.output = .vnone →
      convert_adhoc_action_result evalRec wb action_name result = .ok result) ∧
    (spec.output.falsy = false →
      convert_adhoc_action_result evalRec wb action_name result =
        .ok (evalRec spec.output result)) := by
  unfold convert_adhoc_action_result
  rw [h]
  constructor
  · intro hb
    simp [hb, Value.falsy]
  · intro hb
    simp [hb]

/-- The ad-hoc spec for the C6 witness: no `output` transform. -/
def c6Spec : AdhocActionSpec :=
  { clazz := "std.echo", base_parameters := .vnone, output := .vnone }

/-- A workbook declaring the C6 spec under `demo.passthrough`. -/
def c6Wb : Workbook := { name := "wb", actions := [("demo.passthrough", c6Spec)] }

/-- C6, witnessed: with no `output` transform, the base result `{"a": 1}`
passes through unchanged. -/
theorem convert_result_identity_or_eval_witness :
    c6Wb.get_action "demo.passthrough" = some c6Spec ∧
    c6Spec.output = .vnone ∧
    convert_adhoc_action_result (fun _ _ => .vstr "EVAL") c6Wb "demo.passthrough"
      (.vobj (.cons "a" (.vint 1) .nil)) = .ok (.vobj (.cons "a" (.vint 1) .nil)) :=
  ⟨rfl, rfl,
    (convert_result_identity_or_eval (fun _ _ => .vstr "EVAL") c6Wb "demo.passthrough" c6Spec
      (.vobj (.cons "a" (.vint 1) .nil)) rfl).1 rfl⟩

/-! ### C10 — empty-but-present output transform -/

/-- C10: the identity branch of result mapping is taken on any falsy
`output` transform, not only an absent one: a present-but-empty transform
(`{}` or `""`) returns the base result unchanged, for every expression
evaluator — so the evaluator is never consulted. -/
theorem convert_result_empty_transform (wb : Workbook) (action_name : String)
    (spec : AdhocActionSpec) (result : Value)
    (h : wb.get_action action_name = some spec)
    (h2 : spec.output = .vobj .nil ∨ spec.output = .vstr "") :
    ∀ evalRec : ExprEvaluator,
      convert_adhoc_action_result evalRec wb action_name result = .ok result := by
  intro evalRec
  unfold convert_adhoc_action_result
  rw [h]
  rcases h2 with h2 | h2 <;> simp [h2, Value.falsy, ObjList.isNil]

/-- The ad-hoc spec for the C10 witness: an `output` transform that is
present but empty (`{}`). -/
def c10Spec : AdhocActionSpec :=
  { clazz := "std.echo", base_parameters := .vnone, output := .vobj .nil }

/-- A workbook declaring the C10 spec under `demo.emptyout`. -/
def c10Wb : Workbook := { name := "wb", actions := [("demo.emptyout", c10Spec)] }

/-- C10, witnessed: with `output = {}`, the base result `{"a": 1}` passes
through unchanged even under an evaluator that would rewrite anything. -/
theorem convert_result_empty_transform_witness :
    c10Wb.get_action "demo.emptyout" = some c10Spec ∧
    c10Spec.output = .vobj .nil ∧
    convert_adhoc_action_result (fun _ _ => .vstr "EVAL") c10Wb "demo.emptyout"
      (.vobj (.cons "a" (.vint 1) .nil)) = .ok (.vobj (.cons "a" (.vint 1) .nil)) :=
  ⟨rfl, rfl,
    convert_result_empty_transform c10Wb "demo.emptyout" c10Spec
      (.vobj (.cons "a" (.vint 1) .nil)) rfl (Or.inl rfl) (fun _ _ => .vstr "EVAL")⟩

end ActionManager
